import Mathlib

/-!
Shallow embedding of `src/curve25519-dalek/src/backend/serial/scalar_mul/vartime_double_base.rs`.

The file under verification contains three items:
  * `mul` (lines 26-75): single-shot variable-time computation of `a*A + b*B`;
  * `deserialize_r_from_backup` (lines 77-95): rebuilds a `ProjectivePoint`
    from a flat 15-limb backup array;
  * `mul_kobold` (lines 98-199): a resumable variant of `mul` that performs at
    most a fixed number of double-and-add rounds per invocation, persisting a
    checkpoint (cursor plus serialized accumulator) through a caller-supplied
    sink callback when work remains.

The field arithmetic, the Edwards group law, the NAF recoder and the lookup
tables live outside the given source tree; per the specification they are
external collaborators specified only at their interface boundary.  They are
modelled here as follows: the curve group is taken to be the free abelian
group on the two base points `A` and `B`, so a point is a pair `(x, y) : ℤ × ℤ`
standing for `x*A + y*B`; doubling doubles both coordinates and the odd
multiple table for magnitude `m` returns `m` times the corresponding base.
This model is faithful to everything the stepping code observes: the code only
ever doubles the accumulator and adds or subtracts table entries.
-/

set_option maxRecDepth 10000

namespace VartimeDoubleBase

/-- Modelled from the spec: a curve point of the external group, represented in
the free abelian group over the two bases, `(x, y)` standing for `x*A + y*B`
(spec sections 2 and 3 place the group law outside the core). -/
abbrev Pt : Type := ℤ × ℤ

/-- Modelled from the spec: the group identity (`ProjectivePoint::identity()`). -/
def ptId : Pt := (0, 0)

/-- Modelled from the spec: point doubling (`r.double()` plus the coordinate
conversions, which do not change the group element). -/
def ptDouble (p : Pt) : Pt := (2 * p.1, 2 * p.2)

/-- Modelled from the spec: adding `table_A.select(m)`, the odd multiple `m*A`. -/
def ptAddA (p : Pt) (m : ℕ) : Pt := (p.1 + m, p.2)

/-- Modelled from the spec: subtracting `table_A.select(m)`. -/
def ptSubA (p : Pt) (m : ℕ) : Pt := (p.1 - m, p.2)

/-- Modelled from the spec: adding `table_B.select(m)`, the odd multiple `m*B`. -/
def ptAddB (p : Pt) (m : ℕ) : Pt := (p.1, p.2 + m)

/-- Modelled from the spec: subtracting `table_B.select(m)`. -/
def ptSubB (p : Pt) (m : ℕ) : Pt := (p.1, p.2 - m)

/-- A digit sequence, the contents of one of the `[i8; 256]` arrays produced by
the recoder.  Only indices `0..255` are ever observable: every array access in
the embedded code goes through the bounds-checked `digit` below, so values of
the function beyond index 255 never influence a result. -/
abbrev Digits : Type := ℕ → ℤ

/-- Abnormal outcomes of one stepper invocation.  `indexOutOfBounds` models the
Rust array-bounds panic raised by `a_naf[i]` / `b_naf[i]` when `i ≥ 256`.
`malformedCheckpoint` is Modelled from the spec (section 7), which calls for a
dedicated `MalformedCheckpoint` error on invalid resumption data; the embedded
code never produces it, which is material to claim C6. -/
inductive StepError : Type where
  | indexOutOfBounds : StepError
  | malformedCheckpoint : StepError
deriving DecidableEq, Repr

/-- Bounds-checked digit access, the embedding of the Rust index expression
`naf[i]` on an `[i8; 256]` array: in range it yields the digit, out of range it
is an index-out-of-bounds panic. -/
def digit (d : Digits) (i : ℕ) : Except StepError ℤ :=
  if i < 256 then .ok (d i) else .error .indexOutOfBounds

/-- The `match a_naf[i].cmp(&0)` arm of the loop body (lines 54-58 and 154-158):
positive digit adds the looked-up multiple of `A`, negative digit subtracts it,
zero leaves the accumulator alone. -/
def applyDigitA (t : Pt) (d : ℤ) : Pt :=
  if 0 < d then ptAddA t d.toNat else if d < 0 then ptSubA t (-d).toNat else t

/-- The `match b_naf[i].cmp(&0)` arm of the loop body (lines 60-64 and 160-164),
acting on the `B` coordinate. -/
def applyDigitB (t : Pt) (d : ℤ) : Pt :=
  if 0 < d then ptAddB t d.toNat else if d < 0 then ptSubB t (-d).toNat else t

/-- One double-and-add round of either loop: `t = r.double()` followed by the
two digit-conditional additions at index `i`.  Fails exactly when the digit
array accesses are out of bounds. -/
def stepRound (a b : Digits) (i : ℕ) (r : Pt) : Except StepError Pt :=
  match digit a i with
  | .error e => .error e
  | .ok ai =>
    match digit b i with
    | .error e => .error e
    | .ok bi => .ok (applyDigitB (applyDigitA (ptDouble r) ai) bi)

/-- The starting-index scan of lines 34-41 and 126-134: `i` starts at 255 and
the loop walks `j` from 255 down to 0, setting `i := j` and stopping at the
first index where either digit is nonzero; if every digit is zero the scan
ends with `i = 0`.  The recursion argument is the index currently examined. -/
def findStartAux (a b : Digits) : ℕ → ℕ
  | 0 => 0
  | k + 1 => if a (k + 1) ≠ 0 ∨ b (k + 1) ≠ 0 then k + 1 else findStartAux a b k

/-- Starting index for a fresh computation: highest index `≤ 255` carrying a
nonzero digit in either sequence, or 0 when both sequences are all zero. -/
def findStart (a b : Digits) : ℕ := findStartAux a b 255

/-- The loop of `mul` (lines 51-72): run one round per index from `i` down to
0 inclusive, then stop. -/
def mulLoop (a b : Digits) : ℕ → Pt → Except StepError Pt
  | 0, r => stepRound a b 0 r
  | i + 1, r =>
    match stepRound a b (i + 1) r with
    | .error e => .error e
    | .ok t => mulLoop a b i t

/-- The loop of `mul_kobold` (lines 150-177).  State: current index, the round
counter `j` of the source, the accumulator, and (an added observer, not present
in the source) a count of rounds executed so far.  Result: the final value of
`i` after the loop, the final accumulator, and the total round count.  The
source order of checks is preserved: the round runs first, then `if i == 0
break`, then `if j == 30 { i -= 1; break }`, else `i -= 1; j += 1`. -/
def koboldLoop (a b : Digits) : ℕ → ℕ → Pt → ℕ → Except StepError (ℕ × Pt × ℕ)
  | 0, _, r, c =>
    match stepRound a b 0 r with
    | .error e => .error e
    | .ok t => .ok (0, t, c + 1)
  | i + 1, j, r, c =>
    match stepRound a b (i + 1) r with
    | .error e => .error e
    | .ok t =>
      if j = 30 then .ok (i, t, c + 1)
      else koboldLoop a b i (j + 1) t (c + 1)

/-- Body of `mul` given already-recoded digit sequences (lines 34-74): find the
starting index, run the loop from the identity. -/
def mulCore (a b : Digits) : Except StepError Pt :=
  mulLoop a b (findStart a b) ptId

/-- Observable outcome of one `mul_kobold` invocation.  `point` is the returned
`EdwardsPoint`, `status` the returned `u8` (2 = Done, 1 = Continue), `sink` the
list of `update_kobold_account_handle` calls made during the invocation in
order (each carrying the cursor and the accumulator whose limbs are persisted),
and `rounds` the observer count of double-and-add rounds executed. -/
structure StepOutput : Type where
  point : Pt
  status : ℕ
  sink : List (ℕ × Pt)
  rounds : ℕ
deriving DecidableEq, Repr

/-- Lines 123-141: the sentinel `i_bu == 300` means a fresh start (scan for the
starting index, accumulator = identity); any other `i_bu` resumes at cursor
`i_bu` with the accumulator deserialized from the backup.  In the free-group
model the deserialization of the checkpointed accumulator is the identity map;
the limb-level codec is embedded separately below and proved to round-trip. -/
def startState (a b : Digits) (i_bu : ℕ) (r_bu : Pt) : ℕ × Pt :=
  if i_bu = 300 then (findStart a b, ptId) else (i_bu, r_bu)

/-- Body of `mul_kobold` given already-recoded digit sequences (lines 123-198):
determine the start state, run the bounded loop, then either return the
finished point with status 2 (lines 179-180) or persist `(i, r)` through the
sink and return the placeholder `EdwardsPoint::default()` (modelled as the
identity) with status 1 (lines 181-198).  The logging callbacks `msgFun` and
`logFun` only format strings and are not modelled. -/
def mulKoboldCore (a b : Digits) (i_bu : ℕ) (r_bu : Pt) : Except StepError StepOutput :=
  match koboldLoop a b (startState a b i_bu r_bu).1 0 (startState a b i_bu r_bu).2 0 with
  | .error e => .error e
  | .ok t =>
    if t.1 = 0 then .ok ⟨t.2.1, 2, [], t.2.2⟩
    else .ok ⟨ptId, 1, [(t.1, t.2.1)], t.2.2⟩

/-- Modelled from the spec: the external Digit Recoder (`Scalar::non_adjacent_form`,
outside the given source tree).  Standard width-`w` NAF: an odd remainder is
centered into `(-2^(w-1), 2^(w-1))`, emitted, and subtracted before halving; an
even value emits 0 and halves.  The fuel argument fixes the output length at
256 digits, matching the `[i8; 256]` produced by the recoder. -/
def wnafList (w : ℕ) : ℕ → ℕ → List ℤ
  | 0, _ => []
  | fuel + 1, n =>
    if n = 0 then 0 :: wnafList w fuel 0
    else if n % 2 = 1 then
      let m := n % 2 ^ w
      if m < 2 ^ (w - 1) then (m : ℤ) :: wnafList w fuel ((n - m) / 2)
      else ((m : ℤ) - 2 ^ w) :: wnafList w fuel ((n + (2 ^ w - m)) / 2)
    else 0 :: wnafList w fuel (n / 2)

/-- Digit sequence of a scalar at NAF width `w`, as a total lookup into the
256-entry recoder output (entries beyond the list default to 0, matching the
fixed-size array). -/
def nafDigits (w n : ℕ) : Digits := fun i => (wnafList w 256 n).getD i 0

/-- The function `mul` of lines 26-75 at scalar level: recode `a` at width 5
and `b` at width 8 (the `precomputed-tables` configuration of lines 29-32) and
run the unbounded double-and-add pass. -/
def mul (a b : ℕ) : Except StepError Pt :=
  mulCore (nafDigits 5 a) (nafDigits 8 b)

/-- The function `mul_kobold` of lines 98-199 at scalar level, with the same
recoding configuration as `mul`. -/
def mul_kobold (a b : ℕ) (i_bu : ℕ) (r_bu : Pt) : Except StepError StepOutput :=
  mulKoboldCore (nafDigits 5 a) (nafDigits 8 b) i_bu r_bu

/-- Modelled from the spec: the caller protocol of sections 2 and 6 — invoke
the stepper starting from the `NotStarted` sentinel 300, and on a Continue
result feed the single emitted checkpoint back into the next invocation, until
a Done result delivers the point.  Fuel bounds the number of invocations;
`none` covers fuel exhaustion, an abnormal invocation, and a Continue result
whose sink trace is not exactly one checkpoint. -/
def runFromCheckpoint (a b : Digits) : ℕ → ℕ → Pt → Option Pt
  | 0, _, _ => none
  | fuel + 1, i_bu, r_bu =>
    match mulKoboldCore a b i_bu r_bu with
    | .error _ => none
    | .ok out =>
      if out.status = 2 then some out.point
      else
        match out.sink with
        | [(i, p)] => runFromCheckpoint a b fuel i p
        | _ => none

/-- Modelled from the spec: run the resumable stepper to completion from a
fresh start, at scalar level.  The fuel 300 exceeds the most invocations any
start can need (at most nine, since each Continue lowers the cursor by 31). -/
def runToCompletion (a b : ℕ) : Option Pt :=
  runFromCheckpoint (nafDigits 5 a) (nafDigits 8 b) 300 300 ptId

/-- A field element as stored by the serial u64 backend: five unsigned 64-bit
limbs (`FieldElement51(pub [u64; 5])`).  Limb values are modelled as naturals;
the codec under verification moves limbs around without arithmetic on them. -/
@[ext]
structure FieldElement51 : Type where
  limbs : Fin 5 → ℕ

/-- A projective point as three field elements, the accumulator representation
checkpointed by `mul_kobold`. -/
@[ext]
structure ProjectivePoint : Type where
  X : FieldElement51
  Y : FieldElement51
  Z : FieldElement51

/-- The serialization at lines 183-190 of `mul_kobold`: the 15-element
concatenation `[r.X.0, r.Y.0, r.Z.0].concat()` of the X, Y, Z limb vectors in
that order. -/
def serialize_r (p : ProjectivePoint) : Fin 15 → ℕ := fun k =>
  if h5 : (k : ℕ) < 5 then p.X.limbs ⟨k, h5⟩
  else if h10 : (k : ℕ) < 10 then p.Y.limbs ⟨(k : ℕ) - 5, by omega⟩
  else p.Z.limbs ⟨(k : ℕ) - 10, by omega⟩

/-- The function `deserialize_r_from_backup` of lines 77-95: slice the backup
array into `[0..5)`, `[5..10)`, `[10..15)` and rebuild the three field
elements, copying limbs verbatim. -/
def deserialize_r_from_backup (bu : Fin 15 → ℕ) : ProjectivePoint where
  X := ⟨fun k => bu ⟨(k : ℕ), by omega⟩⟩
  Y := ⟨fun k => bu ⟨(k : ℕ) + 5, by omega⟩⟩
  Z := ⟨fun k => bu ⟨(k : ℕ) + 10, by omega⟩⟩

end VartimeDoubleBase

namespace VartimeDoubleBase

theorem stepRound_oob (a b : Digits) (i : ℕ) (r : Pt) (h : 255 < i) :
    stepRound a b i r = .error .indexOutOfBounds := by
  unfold stepRound digit
  rw [if_neg (by omega)]

theorem koboldLoop_oob (a b : Digits) (i j : ℕ) (r : Pt) (c : ℕ) (h : 255 < i) :
    koboldLoop a b i j r c = .error .indexOutOfBounds := by
  cases i with
  | zero => omega
  | succ k =>
    unfold koboldLoop
    rw [stepRound_oob a b (k + 1) r h]

theorem koboldLoop_ok_lt (a b : Digits) (i j : ℕ) (r : Pt) (c : ℕ)
    (v : ℕ × Pt × ℕ) (h : koboldLoop a b i j r c = .ok v) : i < 256 := by
  by_contra hi
  rw [koboldLoop_oob a b i j r c (by omega)] at h
  exact absurd h (by simp)

theorem koboldLoop_final_cursor (a b : Digits) :
    ∀ (i : ℕ), ∀ (j : ℕ) (r : Pt) (c i2 : ℕ) (r2 : Pt) (c2 : ℕ),
      koboldLoop a b i j r c = .ok (i2, r2, c2) → i2 = 0 ∨ i2 + 31 = i + j := by
  intro i
  induction i with
  | zero =>
    intro j r c i2 r2 c2 h
    unfold koboldLoop at h
    cases hs : stepRound a b 0 r with
    | error e => rw [hs] at h; simp at h
    | ok t =>
      rw [hs] at h
      simp only [Except.ok.injEq, Prod.mk.injEq] at h
      exact Or.inl h.1.symm
  | succ k ih =>
    intro j r c i2 r2 c2 h
    unfold koboldLoop at h
    split at h
    · simp at h
    · rename_i t hs
      split at h
      · rename_i hj
        simp only [Except.ok.injEq, Prod.mk.injEq] at h
        obtain ⟨h1, h2, h3⟩ := h
        right
        omega
      · rcases ih (j + 1) t (c + 1) i2 r2 c2 h with h0 | heq
        · exact Or.inl h0
        · right; omega

theorem koboldLoop_rounds_le (a b : Digits) :
    ∀ (i : ℕ), ∀ (j : ℕ) (r : Pt) (c i2 : ℕ) (r2 : Pt) (c2 : ℕ),
      j ≤ 30 → koboldLoop a b i j r c = .ok (i2, r2, c2) → c2 ≤ c + (31 - j) := by
  intro i
  induction i with
  | zero =>
    intro j r c i2 r2 c2 hj h
    unfold koboldLoop at h
    cases hs : stepRound a b 0 r with
    | error e => rw [hs] at h; simp at h
    | ok t =>
      rw [hs] at h
      simp only [Except.ok.injEq, Prod.mk.injEq] at h
      omega
  | succ k ih =>
    intro j r c i2 r2 c2 hj h
    unfold koboldLoop at h
    split at h
    · simp at h
    · rename_i t hs
      split at h
      · rename_i hj30
        simp only [Except.ok.injEq, Prod.mk.injEq] at h
        obtain ⟨h1, h2, h3⟩ := h
        omega
      · rename_i hj30
        have := ih (j + 1) t (c + 1) i2 r2 c2 (by omega) h
        omega

theorem mulKoboldCore_ok_cases (a b : Digits) (i_bu : ℕ) (r_bu : Pt) (out : StepOutput)
    (h : mulKoboldCore a b i_bu r_bu = .ok out) :
    ∃ i2 r2 c2,
      koboldLoop a b (startState a b i_bu r_bu).1 0 (startState a b i_bu r_bu).2 0
        = .ok (i2, r2, c2) ∧
      ((i2 = 0 ∧ out = ⟨r2, 2, [], c2⟩) ∨ (i2 ≠ 0 ∧ out = ⟨ptId, 1, [(i2, r2)], c2⟩)) := by
  unfold mulKoboldCore at h
  split at h
  · simp at h
  · rename_i t hl
    obtain ⟨i2, r2, c2⟩ := t
    split at h
    · rename_i hi
      simp only [Except.ok.injEq] at h
      exact ⟨i2, r2, c2, hl, Or.inl ⟨hi, h.symm⟩⟩
    · rename_i hi
      simp only [Except.ok.injEq] at h
      exact ⟨i2, r2, c2, hl, Or.inr ⟨hi, h.symm⟩⟩

end VartimeDoubleBase

namespace VartimeDoubleBase

/-- Claim C1: the resumable stepper, driven from the `NotStarted` sentinel and
fed each emitted checkpoint until Done, is claimed to agree with the single-shot
`mul` for all scalars.  The code violates this: for `a = 2^31, b = 0` (highest
nonzero NAF digit at index 31) the budget check fires after the round at index
1, decrements the cursor to 0 and returns Done without the index-0 round, so
the completed run yields `2^30 * A` (coordinates `(1073741824, 0)` in the free
model) while `mul` yields `2^31 * A` (coordinates `(2147483648, 0)`). -/
theorem C1_completion_differs_from_single_shot :
    runToCompletion (2 ^ 31) 0 = some ((1073741824 : ℤ), (0 : ℤ)) ∧
      mul (2 ^ 31) 0 = .ok ((2147483648 : ℤ), (0 : ℤ)) ∧
      ((1073741824 : ℤ), (0 : ℤ)) ≠ (((2147483648 : ℤ), (0 : ℤ)) : Pt) :=
  ⟨rfl, rfl, by decide⟩

/-- Claim C2: whenever the stepper returns Done, the index-0 round is claimed
to have been performed in that invocation.  The code violates this: resuming at
cursor 31 with accumulator `(1, 0)` over all-zero digit sequences returns Done
after exactly 31 rounds (indices 31 down to 1), with the accumulator equal to
its 31-fold doubling `(2^31, 0)`; the index-0 round was never executed, and
executing it would at least double the accumulator again. -/
theorem C2_done_without_index0_round :
    mul_kobold 0 0 31 ((1 : ℤ), (0 : ℤ)) =
        .ok ⟨((2147483648 : ℤ), (0 : ℤ)), 2, [], 31⟩ ∧
      ptDouble ((2147483648 : ℤ), (0 : ℤ)) ≠ (((2147483648 : ℤ), (0 : ℤ)) : Pt) :=
  ⟨rfl, by decide⟩

/-- Claim C3 counterexample: the claim bounds the rounds per invocation by the
step budget 30, but the invocation resuming at cursor 100 (over all-zero digit
sequences) executes 31 double-and-add rounds: the source checks `j == 30` only
after the round for `j = 30` has already run. -/
theorem C3_thirty_one_rounds_in_one_invocation :
    (mul_kobold 0 0 100 ((1 : ℤ), (0 : ℤ))).map StepOutput.rounds = .ok 31 ∧
      ¬((31 : ℕ) ≤ 30) :=
  ⟨rfl, by decide⟩

/-- Claim C3 as amended: every invocation of the stepper executes at most 31
double-and-add rounds (one more than the claimed budget of 30). -/
theorem C3_rounds_le_31 (a b i_bu : ℕ) (r_bu : Pt) (out : StepOutput)
    (h : mul_kobold a b i_bu r_bu = .ok out) : out.rounds ≤ 31 := by
  unfold mul_kobold at h
  obtain ⟨i2, r2, c2, hl, hc | hc⟩ := mulKoboldCore_ok_cases _ _ _ _ _ h
  all_goals obtain ⟨hi, rfl⟩ := hc
  all_goals have hr := koboldLoop_rounds_le _ _ _ _ _ _ _ _ _ (by omega) hl
  all_goals simpa using hr

/-- Witness for the amended C3 bound at a concrete invocation that attains 31
rounds. -/
theorem C3_rounds_le_31_witness : (31 : ℕ) ≤ 31 :=
  C3_rounds_le_31 0 0 100 ((1 : ℤ), (0 : ℤ))
    ⟨((0 : ℤ), (0 : ℤ)), 1, [(69, ((2147483648 : ℤ), (0 : ℤ)))], 31⟩ rfl

/-- Claim C4: when the budget is exhausted before index 0 is processed, the
stepper is claimed to invoke the sink with the next index and return Continue.
The code violates this at the boundary: resuming at cursor 31 (all-zero
digits), the budget is exhausted after the round at index 1 — index 0 was never
processed — yet the invocation returns status 2 (Done) and never invokes the
sink. -/
theorem C4_budget_exhausted_but_done_without_sink :
    (mul_kobold 0 0 31 ((1 : ℤ), (0 : ℤ))).map (fun o => (o.status, o.sink)) =
      .ok (2, []) :=
  rfl

/-- Claim C5: deserializing the 15-limb serialization of any projective
accumulator (X, Y, Z limb vectors concatenated in that order) returns the same
point limb-for-limb; neither direction normalizes or reduces any limb, as the
equality holds for arbitrary, not necessarily reduced, limb values. -/
theorem C5_codec_roundtrip (p : ProjectivePoint) :
    deserialize_r_from_backup (serialize_r p) = p := by
  refine ProjectivePoint.ext ?_ ?_ ?_ <;> refine FieldElement51.ext ?_ <;>
    funext k <;> fin_cases k <;> rfl

/-- Claim C6 counterexample: resuming with cursor 256 — outside `[0, 255]` and
not the sentinel 300 — does not raise the claimed `MalformedCheckpoint` error;
the code aborts with an array index-out-of-bounds panic at the first digit
access. -/
theorem C6_cursor_256_panics_without_malformed_checkpoint :
    mul_kobold 0 0 256 ((0 : ℤ), (0 : ℤ)) = .error .indexOutOfBounds ∧
      StepError.indexOutOfBounds ≠ StepError.malformedCheckpoint :=
  ⟨rfl, by decide⟩

/-- Claim C6 as amended: every resumption whose cursor is outside `[0, 255]`
and distinct from the `NotStarted` sentinel 300 aborts with an
index-out-of-bounds panic — before any sink invocation or normal return, so
nothing is silently truncated, padded, or processed. -/
theorem C6_invalid_cursor_aborts (a b i_bu : ℕ) (r_bu : Pt)
    (hgt : 255 < i_bu) (hne : i_bu ≠ 300) :
    mul_kobold a b i_bu r_bu = .error .indexOutOfBounds := by
  unfold mul_kobold mulKoboldCore startState
  rw [if_neg hne]
  dsimp only
  rw [koboldLoop_oob _ _ _ _ _ _ hgt]

/-- Witness for the amended C6 behavior at the concrete cursor 301. -/
theorem C6_invalid_cursor_aborts_witness :
    mul_kobold 1 1 301 ((5 : ℤ), (7 : ℤ)) = .error .indexOutOfBounds :=
  C6_invalid_cursor_aborts 1 1 301 ((5 : ℤ), (7 : ℤ)) (by omega) (by omega)

/-- Claim C7: the identity cases of the spec hold — `a = 0, b = 0` yields the
group identity (and the starting index degenerates to 0 over the all-zero
digit sequences), `a = 1, b = 0` yields `A` (coordinates `(1, 0)` in the free
model), and `a = 0, b = 1` yields the fixed base `B` (coordinates `(0, 1)`). -/
theorem C7_identity_cases :
    mul 0 0 = .ok ptId ∧ findStart (nafDigits 5 0) (nafDigits 8 0) = 0 ∧
      mul 1 0 = .ok ((1 : ℤ), (0 : ℤ)) ∧ mul 0 1 = .ok ((0 : ℤ), (1 : ℤ)) :=
  ⟨rfl, rfl, rfl, rfl⟩

/-- Claim C8: in every invocation the checkpoint sink is invoked at most once,
it is invoked exactly when the invocation returns Continue (status 1), and it
is never invoked when the invocation returns Done (status 2). -/
theorem C8_sink_at_most_once_iff_continue (a b i_bu : ℕ) (r_bu : Pt)
    (out : StepOutput) (h : mul_kobold a b i_bu r_bu = .ok out) :
    out.sink.length ≤ 1 ∧ (out.sink ≠ [] ↔ out.status = 1) ∧
      (out.status = 2 → out.sink = []) := by
  unfold mul_kobold at h
  obtain ⟨i2, r2, c2, hl, hc | hc⟩ := mulKoboldCore_ok_cases _ _ _ _ _ h
  all_goals obtain ⟨hi, rfl⟩ := hc
  all_goals exact ⟨by simp, by simp, by simp⟩

/-- Witness for C8 at a concrete Continue invocation with one sink call. -/
theorem C8_sink_at_most_once_iff_continue_witness :
    ([((69 : ℕ), ((2147483648 : ℤ), (0 : ℤ)))] : List (ℕ × Pt)).length ≤ 1 ∧
      (([((69 : ℕ), ((2147483648 : ℤ), (0 : ℤ)))] : List (ℕ × Pt)) ≠ [] ↔ (1 : ℕ) = 1) ∧
      ((1 : ℕ) = 2 → ([((69 : ℕ), ((2147483648 : ℤ), (0 : ℤ)))] : List (ℕ × Pt)) = []) :=
  C8_sink_at_most_once_iff_continue 0 0 100 ((1 : ℤ), (0 : ℤ))
    ⟨((0 : ℤ), (0 : ℤ)), 1, [(69, ((2147483648 : ℤ), (0 : ℤ)))], 31⟩ rfl

/-- Claim C9: the stepper is a pure function of its inputs — two runs on the
same scalars, cursor and accumulator produce the same status, point and sink
trace. -/
theorem C9_deterministic (a b i_bu : ℕ) (r_bu : Pt)
    (o1 o2 : Except StepError StepOutput)
    (h1 : mul_kobold a b i_bu r_bu = o1) (h2 : mul_kobold a b i_bu r_bu = o2) :
    o1 = o2 :=
  h1.symm.trans h2

/-- Witness for C9: two evaluated runs at cursor 31 produce the identical
output. -/
theorem C9_deterministic_witness :
    (Except.ok ⟨((2147483648 : ℤ), (0 : ℤ)), 2, [], 31⟩ : Except StepError StepOutput) =
      .ok ⟨((2147483648 : ℤ), (0 : ℤ)), 2, [], 31⟩ :=
  C9_deterministic 0 0 31 ((1 : ℤ), (0 : ℤ)) _ _ rfl rfl

/-- Claim C10: every sink invocation carries a cursor in `[1, 254]`: the sink
is only reached when the post-loop cursor is nonzero, and the post-loop cursor
of a budget exit is the start cursor (at most 255) minus 31. -/
theorem C10_sink_cursor_bounds (a b i_bu : ℕ) (r_bu : Pt) (out : StepOutput)
    (c : ℕ) (p : Pt) (h : mul_kobold a b i_bu r_bu = .ok out)
    (hmem : (c, p) ∈ out.sink) : 1 ≤ c ∧ c ≤ 254 := by
  unfold mul_kobold at h
  obtain ⟨i2, r2, c2, hl, hc | hc⟩ := mulKoboldCore_ok_cases _ _ _ _ _ h
  all_goals obtain ⟨hi, rfl⟩ := hc
  · simp at hmem
  · simp only [List.mem_singleton, Prod.mk.injEq] at hmem
    obtain ⟨h3, h4⟩ := hmem
    have hlt := koboldLoop_ok_lt _ _ _ _ _ _ _ hl
    have hfc := koboldLoop_final_cursor _ _ _ _ _ _ _ _ _ hl
    omega

/-- Witness for C10 at a concrete invocation whose sink call carries cursor
169. -/
theorem C10_sink_cursor_bounds_witness : (1 : ℕ) ≤ 169 ∧ (169 : ℕ) ≤ 254 :=
  C10_sink_cursor_bounds 0 0 200 ((0 : ℤ), (1 : ℤ))
    ⟨((0 : ℤ), (0 : ℤ)), 1, [(169, ((0 : ℤ), (2147483648 : ℤ)))], 31⟩
    169 ((0 : ℤ), (2147483648 : ℤ)) rfl (by decide)

end VartimeDoubleBase
